import Mathlib

/-!
Shallow embedding of `src/GLM_Example.py` (repository Sellaris/AIPet).

The script constructs a chat-completion client, submits one request with a
hardcoded model identifier, two messages (system prompt then user prompt) and
a temperature, and prints `response.choices[0].message.content`.

We model the external collaborator (the SDK's `client.chat.completions.create`)
as a function from the request payload to either a fault or a `ChatResponse`,
and the script as a pure function `run` of that collaborator.  The request
payload is modelled as the ordered association list of keyword arguments the
script passes at the call site (lines 7-20 of the source).  Standard output is
modelled as the string the run writes, `print` appending a trailing newline.
The script reads no command-line arguments and no environment variables; we
pass both to `run` explicitly so that independence from them is a provable
statement rather than a modelling artefact.
-/

/-- Conversational role tag of a message (`"system"`, `"user"`, `"assistant"`). -/
inductive Role where
  | system
  | user
  | assistant
deriving DecidableEq, Repr

/-- One role-tagged message of the request, `{"role": ..., "content": ...}`. -/
structure Message where
  role : Role
  content : String
deriving DecidableEq, Repr

/-- The inner message object of a response choice; only `content` is ever read
by the script, but the real response may carry more, which we keep out of the
inner object and on the choice / response instead. -/
structure ChoiceMessage where
  content : String
deriving DecidableEq, Repr

/-- One candidate reply of the response.  `finishReason` exists in the real
response object but is never read by the script. -/
structure Choice where
  message : ChoiceMessage
  finishReason : String
deriving DecidableEq, Repr

/-- The response object returned by the collaborator.  `id` and `usage` model
the additional fields (request id, token usage) the real service returns and
the script ignores. -/
structure ChatResponse where
  choices : List Choice
  id : String
  usage : Nat
deriving DecidableEq, Repr

/-- A value of one keyword argument of the `create` call. -/
inductive FieldValue where
  | str (s : String)
  | num (q : ℚ)
  | msgs (l : List Message)
deriving DecidableEq, Repr

/-- The hardcoded system prompt of source line 12. -/
def systemPromptText : String := "你是一个有用的AI助手。"

/-- The hardcoded user prompt of source line 16. -/
def userPromptText : String := "你好，请介绍一下自己。"

/-- The ordered keyword arguments the script passes to
`client.chat.completions.create` (source lines 7-20): a model identifier, the
two messages, and a temperature of 0.6. -/
def requestPayload : List (String × FieldValue) :=
  [("model", FieldValue.str "glm-4.7"),
   ("messages", FieldValue.msgs
      [⟨Role.system, systemPromptText⟩, ⟨Role.user, userPromptText⟩]),
   ("temperature", FieldValue.num (6 / 10))]

/-- A fault terminating the run: either a fault the collaborator signalled
(carried unchanged), or the language's index-out-of-bounds fault raised when
the script evaluates `choices[0]` on a too-short sequence (Python's
`IndexError`, recording the index demanded and the length found). -/
inductive Fault (ε : Type) where
  | collaborator (e : ε)
  | indexError (idx : Nat) (len : Nat)
deriving DecidableEq, Repr

/-- A collaborator (the SDK call, or a test double standing in for it): given
the request payload it either signals a fault or returns a response. -/
def Collaborator (ε : Type) : Type :=
  List (String × FieldValue) → Except ε ChatResponse

/-- The observable outcome of one run of the script: the ordered list of
request payloads submitted to the collaborator, the full contents written to
standard output, and whether the process finished normally or an uncaught
fault terminated it. -/
structure RunResult (ε : Type) where
  calls : List (List (String × FieldValue))
  stdout : String
  outcome : Except (Fault ε) Unit
deriving Repr

/-- The script (source lines 1-23) as a function of the collaborator: submit
`requestPayload` once; if the collaborator faults, propagate the fault after
writing nothing; otherwise evaluate `response.choices[0]` (an index error on
an empty sequence) and print its `message.content` followed by a newline.
`argv` and `env` model the ambient process inputs; the source reads neither. -/
def run {ε : Type} (collab : Collaborator ε)
    (argv : List String) (env : String → Option String) : RunResult ε :=
  match collab requestPayload with
  | Except.error e => ⟨[requestPayload], "", Except.error (Fault.collaborator e)⟩
  | Except.ok resp =>
    match resp.choices[0]? with
    | none =>
        ⟨[requestPayload], "", Except.error (Fault.indexError 0 resp.choices.length)⟩
    | some c =>
        ⟨[requestPayload], c.message.content ++ "\n", Except.ok ()⟩

/-- C1: a collaborator returning exactly one choice whose message content is
`X` makes the script write exactly `X` plus a trailing newline to standard
output, and the run terminates normally. -/
theorem single_choice_prints_content {ε : Type} (collab : Collaborator ε)
    (argv : List String) (env : String → Option String)
    (r : ChatResponse) (c : Choice) (X : String)
    (hok : collab requestPayload = Except.ok r)
    (hch : r.choices = [c])
    (hX : c.message.content = X) :
    (run collab argv env).stdout = X ++ "\n" ∧
      (run collab argv env).outcome = Except.ok () := by
  unfold run
  rw [hok]
  simp [hch, hX]

/-- Witness for C1 at a concrete collaborator returning one choice with
content "X". -/
theorem single_choice_prints_content_witness :
    (run (fun _ => Except.ok (⟨[⟨⟨"X"⟩, "stop"⟩], "id-1", 7⟩ : ChatResponse))
        [] (fun _ => none) : RunResult Unit).stdout = "X" ++ "\n" ∧
      (run (fun _ => Except.ok (⟨[⟨⟨"X"⟩, "stop"⟩], "id-1", 7⟩ : ChatResponse))
        [] (fun _ => none) : RunResult Unit).outcome = Except.ok () :=
  single_choice_prints_content _ [] (fun _ => none)
    ⟨[⟨⟨"X"⟩, "stop"⟩], "id-1", 7⟩ ⟨⟨"X"⟩, "stop"⟩ "X" rfl rfl rfl

/-- Helper: in every run, whatever the collaborator does, the list of payloads
submitted to it is exactly `[requestPayload]`. -/
theorem run_calls_eq {ε : Type} (collab : Collaborator ε)
    (argv : List String) (env : String → Option String) :
    (run collab argv env).calls = [requestPayload] := by
  unfold run
  cases hc : collab requestPayload with
  | error e => rfl
  | ok r => cases hc0 : r.choices[0]? <;> simp [hc0]

/-- C2: the single request the script submits carries exactly two messages,
in order a `system` message then a `user` message, with the literal prompt
strings of the source. -/
theorem request_messages_shape {ε : Type} (collab : Collaborator ε)
    (argv : List String) (env : String → Option String) :
    (run collab argv env).calls = [requestPayload] ∧
      requestPayload.lookup "messages" =
        some (FieldValue.msgs
          [⟨Role.system, systemPromptText⟩, ⟨Role.user, userPromptText⟩]) :=
  ⟨run_calls_eq collab argv env, by decide⟩

/-- C3: a collaborator that signals a fault makes the script write nothing to
standard output and propagate that fault unchanged; `choices[0]` is never
evaluated (no index fault can be the outcome). -/
theorem fault_propagates {ε : Type} (collab : Collaborator ε)
    (argv : List String) (env : String → Option String) (e : ε)
    (herr : collab requestPayload = Except.error e) :
    (run collab argv env).stdout = "" ∧
      (run collab argv env).outcome = Except.error (Fault.collaborator e) := by
  unfold run
  rw [herr]
  exact ⟨rfl, rfl⟩

/-- Witness for C3 at a concrete always-faulting collaborator. -/
theorem fault_propagates_witness :
    (run (fun _ => (Except.error "boom" : Except String ChatResponse))
        [] (fun _ => none)).stdout = "" ∧
      (run (fun _ => (Except.error "boom" : Except String ChatResponse))
        [] (fun _ => none)).outcome =
        Except.error (Fault.collaborator "boom") :=
  fault_propagates _ [] (fun _ => none) "boom" rfl

/-- C4: a collaborator returning a response with an empty `choices` sequence
makes the script fault with the index-out-of-bounds fault of sequence access
(index 0 demanded, length 0 found) and write nothing to standard output. -/
theorem empty_choices_index_fault {ε : Type} (collab : Collaborator ε)
    (argv : List String) (env : String → Option String) (r : ChatResponse)
    (hok : collab requestPayload = Except.ok r)
    (hch : r.choices = []) :
    (run collab argv env).stdout = "" ∧
      (run collab argv env).outcome = Except.error (Fault.indexError 0 0) := by
  unfold run
  rw [hok]
  simp [hch]

/-- Witness for C4 at a concrete collaborator returning zero choices. -/
theorem empty_choices_index_fault_witness :
    (run (fun _ => Except.ok (⟨[], "id-2", 0⟩ : ChatResponse))
        [] (fun _ => none) : RunResult Unit).stdout = "" ∧
      (run (fun _ => Except.ok (⟨[], "id-2", 0⟩ : ChatResponse))
        [] (fun _ => none) : RunResult Unit).outcome =
        Except.error (Fault.indexError 0 0) :=
  empty_choices_index_fault _ [] (fun _ => none) ⟨[], "id-2", 0⟩ rfl rfl

/-- C5: the single submitted request's `model` field is the literal string
"glm-4.7". -/
theorem request_model_field {ε : Type} (collab : Collaborator ε)
    (argv : List String) (env : String → Option String) :
    (run collab argv env).calls = [requestPayload] ∧
      requestPayload.lookup "model" = some (FieldValue.str "glm-4.7") :=
  ⟨run_calls_eq collab argv env, by decide⟩

/-- C6: the single submitted request's `temperature` field is the literal
value 0.6, which lies in the range [0, 1]. -/
theorem request_temperature_field {ε : Type} (collab : Collaborator ε)
    (argv : List String) (env : String → Option String) :
    (run collab argv env).calls = [requestPayload] ∧
      requestPayload.lookup "temperature" = some (FieldValue.num (6 / 10)) ∧
      (0 : ℚ) ≤ 6 / 10 ∧ (6 / 10 : ℚ) ≤ 1 :=
  ⟨run_calls_eq collab argv env, rfl, by norm_num, by norm_num⟩

/-- C7: for every collaborator behavior the script submits exactly one
request, with no retry: the trace of collaborator calls is the one-element
list `[requestPayload]`. -/
theorem collaborator_called_exactly_once {ε : Type} (collab : Collaborator ε)
    (argv : List String) (env : String → Option String) :
    (run collab argv env).calls = [requestPayload] ∧
      (run collab argv env).calls.length = 1 := by
  refine ⟨run_calls_eq collab argv env, ?_⟩
  rw [run_calls_eq collab argv env]
  rfl

/-- C8: two successful responses agreeing on `choices[0].message.content`
(both present with equal content, or both absent) yield identical standard
output, whatever their id, token usage, finish reasons or further choices. -/
theorem output_depends_only_on_first_choice_content {ε₁ ε₂ : Type}
    (collab₁ : Collaborator ε₁) (collab₂ : Collaborator ε₂)
    (argv₁ argv₂ : List String) (env₁ env₂ : String → Option String)
    (r₁ r₂ : ChatResponse)
    (h₁ : collab₁ requestPayload = Except.ok r₁)
    (h₂ : collab₂ requestPayload = Except.ok r₂)
    (hagree : r₁.choices[0]?.map (fun c => c.message.content)
            = r₂.choices[0]?.map (fun c => c.message.content)) :
    (run collab₁ argv₁ env₁).stdout = (run collab₂ argv₂ env₂).stdout := by
  unfold run
  rw [h₁, h₂]
  cases hc₁ : r₁.choices[0]? with
  | none =>
    cases hc₂ : r₂.choices[0]? with
    | none => simp [hc₁, hc₂]
    | some c₂ => rw [hc₁, hc₂] at hagree; simp at hagree
  | some c₁ =>
    cases hc₂ : r₂.choices[0]? with
    | none => rw [hc₁, hc₂] at hagree; simp at hagree
    | some c₂ =>
      rw [hc₁, hc₂] at hagree
      simp at hagree
      simp [hc₁, hc₂, hagree]

/-- Witness for C8: two responses with equal first-choice content but
different ids, usages, finish reasons and numbers of choices give the same
standard output. -/
theorem output_depends_only_on_first_choice_content_witness :
    (run (fun _ => Except.ok (⟨[⟨⟨"hi"⟩, "stop"⟩], "a", 1⟩ : ChatResponse))
        [] (fun _ => none) : RunResult Unit).stdout =
    (run (fun _ => Except.ok
          (⟨[⟨⟨"hi"⟩, "length"⟩, ⟨⟨"other"⟩, "stop"⟩], "b", 999⟩ : ChatResponse))
        ["arg"] (fun _ => some "v") : RunResult Unit).stdout :=
  output_depends_only_on_first_choice_content _ _ [] ["arg"]
    (fun _ => none) (fun _ => some "v")
    ⟨[⟨⟨"hi"⟩, "stop"⟩], "a", 1⟩
    ⟨[⟨⟨"hi"⟩, "length"⟩, ⟨⟨"other"⟩, "stop"⟩], "b", 999⟩
    rfl rfl rfl

/-- C9: the submitted request carries exactly the three fields `model`,
`messages` and `temperature`, in that order, and in particular no `stream`
flag, no `max_tokens` limit and no other sampling parameter. -/
theorem request_fields_exactly {ε : Type} (collab : Collaborator ε)
    (argv : List String) (env : String → Option String) :
    (run collab argv env).calls = [requestPayload] ∧
      requestPayload.map Prod.fst = ["model", "messages", "temperature"] ∧
      "stream" ∉ requestPayload.map Prod.fst ∧
      "max_tokens" ∉ requestPayload.map Prod.fst :=
  ⟨run_calls_eq collab argv env, by decide, by decide, by decide⟩

/-- C10: the run is a pure function of the collaborator alone: command-line
arguments and environment variables have no influence on the calls made, the
standard output, or the termination outcome. -/
theorem deterministic_ignores_ambient {ε : Type} (collab : Collaborator ε)
    (argv argv' : List String) (env env' : String → Option String) :
    run collab argv env = run collab argv' env' := rfl
